import Mathlib

/-!
Verification development for the ACS census extraction pipeline
(PowerBI-Python-CensusBureau).  The Python sources are shallowly embedded:
pure string manipulations become Lean functions over String / List Char,
pandas numeric cells become an explicit IEEE-class value type (finite
rational, infinities, NaN), data frames become association-list frames,
and the imperative loops (chunking, retry, orchestration) become
structural recursions / folds over explicit state.
-/

namespace CensusETL

/-! ## Python string primitives -/

/-- Model of Python str.replace(a, b) for a single-character pattern:
with a one-character needle, a global substring replace is exactly a
character map over the string. -/
def pyReplaceChar (s : String) (a b : Char) : String :=
  String.mk (s.data.map (fun c => if c = a then b else c))

/-- Embedding of the margin-of-error code derivation used at
ACS Notebook-Bronze Layer ETL.py line 223 (moe_codes) and
acs5_2022_extraction_all_geos.py line 85 (table_moes):
v.replace("E", "M"), a GLOBAL replace of every letter E. -/
def moe_code (v : String) : String := pyReplaceChar v 'E' 'M'

/-- Replacement of only the trailing field-type character, as the spec's
variable-code grammar requires.  This is also exactly the behavior of
acs5_2022_extraction_all_geos.py line 35, which derives MOE_VAR via the
anchored regex replace str.replace("E$", "M", regex=True) - a correct
derivation that the fetch sites never use. -/
def trailing_moe (v : String) : String :=
  match v.data.getLast? with
  | some 'E' => String.mk (v.data.dropLast ++ ['M'])
  | _ => v

/-! ## IEEE-class numeric values (pandas float cells)

After pd.to_numeric(..., errors="coerce") every non-passthrough cell is a
float64; pandas represents a missing value as NaN.  We model a float cell
at the class level: an exact finite rational, a signed infinity, or NaN.
Division and multiplication follow IEEE-754 class behavior, under which
pandas Series arithmetic never raises on division by zero. -/

inductive PVal where
  | num : ℚ → PVal
  | inf : PVal
  | neginf : PVal
  | nan : PVal
deriving DecidableEq

/-- IEEE-754 class semantics of float division, as performed elementwise
by pandas Series division: a finite nonzero value divided by zero is a
signed infinity, zero divided by zero is NaN, and NaN propagates.
No exception is ever raised (the function is total). -/
def pdiv : PVal → PVal → PVal
  | PVal.nan, _ => PVal.nan
  | _, PVal.nan => PVal.nan
  | PVal.num a, PVal.num b =>
      if b = 0 then
        (if a = 0 then PVal.nan else if 0 < a then PVal.inf else PVal.neginf)
      else PVal.num (a / b)
  | PVal.inf, PVal.num b => if b < 0 then PVal.neginf else PVal.inf
  | PVal.neginf, PVal.num b => if b < 0 then PVal.inf else PVal.neginf
  | PVal.num _, PVal.inf => PVal.num 0
  | PVal.num _, PVal.neginf => PVal.num 0
  | PVal.inf, PVal.inf => PVal.nan
  | PVal.inf, PVal.neginf => PVal.nan
  | PVal.neginf, PVal.inf => PVal.nan
  | PVal.neginf, PVal.neginf => PVal.nan

/-- IEEE-754 class semantics of float multiplication. -/
def pmul : PVal → PVal → PVal
  | PVal.nan, _ => PVal.nan
  | _, PVal.nan => PVal.nan
  | PVal.num a, PVal.num b => PVal.num (a * b)
  | PVal.inf, PVal.num b =>
      if b = 0 then PVal.nan else if 0 < b then PVal.inf else PVal.neginf
  | PVal.num a, PVal.inf =>
      if a = 0 then PVal.nan else if 0 < a then PVal.inf else PVal.neginf
  | PVal.neginf, PVal.num b =>
      if b = 0 then PVal.nan else if 0 < b then PVal.neginf else PVal.inf
  | PVal.num a, PVal.neginf =>
      if a = 0 then PVal.nan else if 0 < a then PVal.neginf else PVal.inf
  | PVal.inf, PVal.inf => PVal.inf
  | PVal.neginf, PVal.neginf => PVal.inf
  | PVal.inf, PVal.neginf => PVal.neginf
  | PVal.neginf, PVal.inf => PVal.neginf

/-- Pandas missingness predicate (pd.isna): NaN is missing; an infinity
is NOT missing in pandas. -/
def isMissing : PVal → Bool
  | PVal.nan => true
  | _ => false

/-- The z-score 1.645 converting a 90 percent margin of error to a
standard error, exactly as the literal 1.645 in the sources. -/
def Z90 : ℚ := 1.645

/-- Embedding of the coefficient-of-variation expression computed per
record at ACS Notebook-Bronze Layer ETL.py line 237 and
acs5_2022_extraction_all_geos.py line 114:
(moe / 1.645) / est * 100.0. -/
def cv_expr (moe est : PVal) : PVal :=
  pmul (pdiv (pdiv moe (PVal.num Z90)) est) (PVal.num 100)

/-! ## Chunked fetching -/

/-- The external API's per-request variable ceiling, as set in both fetch
scripts: MAX_VARS_PER_CALL = 50. -/
def MAX_VARS_PER_CALL : Nat := 50

/-- Embedding of the chunking loop at ACS Notebook-Bronze Layer ETL.py
line 152 and acs5_2022_extraction_all_geos.py line 95:
for i in range(0, len(vars_list), MAX_VARS_PER_CALL), with the slice
vars_list[i:i+MAX_VARS_PER_CALL] issued as one request.  Python's
range(0, n, k) has (n + k - 1) / k elements, and the slice l[i:i+k] is
(l.drop i).take k. -/
def fetch_chunks (l : List α) : List (List α) :=
  (List.range ((l.length + MAX_VARS_PER_CALL - 1) / MAX_VARS_PER_CALL)).map
    (fun j => (l.drop (j * MAX_VARS_PER_CALL)).take MAX_VARS_PER_CALL)

/-- Structural-recursion presentation of the same chunking, used as a
reasoning aid and proved equal to fetch_chunks. -/
def chunksRec : List α → List (List α)
  | [] => []
  | a :: as =>
    ((a :: as).take MAX_VARS_PER_CALL) :: chunksRec ((a :: as).drop MAX_VARS_PER_CALL)
termination_by l => l.length
decreasing_by simp [MAX_VARS_PER_CALL]; omega

/-! ## Geo-key normalization -/

/-- Character-list core of Python str.zfill(w): pad with leading zeros up
to width w, keeping a leading sign character in front of the padding.  A
string whose length is already at least w is returned unchanged - zfill
never truncates. -/
def zfill_chars (w : Nat) : List Char → List Char
  | [] => List.replicate w '0'
  | c :: rest =>
    if w ≤ (c :: rest).length then c :: rest
    else if c = '+' ∨ c = '-' then
      c :: (List.replicate (w - (c :: rest).length) '0' ++ rest)
    else List.replicate (w - (c :: rest).length) '0' ++ (c :: rest)

/-- Model of the pandas .str.zfill(w) applied to each raw field. -/
def pyZfill (s : String) (w : Nat) : String := String.mk (zfill_chars w s.data)

/-- Tract GEOID construction (ETL lines 159-162, extraction lines 56-59):
state zero-filled to 2 digits, county to 3, tract to 6, concatenated in
that fixed order. -/
def geoid_tract (state county tract : String) : String :=
  pyZfill state 2 ++ pyZfill county 3 ++ pyZfill tract 6

/-- County FIPS construction (ETL lines 170-172, extraction lines 67-69):
state zero-filled to 2 digits followed by county zero-filled to 3. -/
def fips_county (state county : String) : String :=
  pyZfill state 2 ++ pyZfill county 3

/-- ZCTA key construction (ETL line 167, extraction line 64): the zip
code tabulation area code zero-filled to 5 digits. -/
def key_zcta (z : String) : String := pyZfill z 5

/-- State key construction (ETL line 175, extraction line 72): the state
code zero-filled to 2 digits. -/
def key_state (s : String) : String := pyZfill s 2

/-! ## Data frames -/

/-- A data cell: either raw text as the API returns it, or a numeric
float-class value (with PVal.nan standing for a missing value). -/
inductive Cell where
  | s : String → Cell
  | v : PVal → Cell
deriving DecidableEq

/-- One record's contents, keyed by column name, in column order. -/
abbrev Row := List (String × Cell)

/-- A keyed record set: the embedding of a pandas DataFrame whose index
is the geo key (rows maps each key to its row) and whose cols field is
df.columns. -/
structure Frame where
  rows : List (String × Row)
  cols : List String
deriving DecidableEq

/-- Association lookup by key or column name; the first match wins, as
in a pandas label lookup. -/
def alookup : List (String × β) → String → Option β
  | [], _ => none
  | (k, x) :: rest, key => if k = key then some x else alookup rest key

/-- The geo-key index of a frame, in row order. -/
def Frame.keys (f : Frame) : List String := f.rows.map Prod.fst

/-- The cell stored at a given geo key and column, when both exist. -/
def cellAt (f : Frame) (k c : String) : Option Cell :=
  (alookup f.rows k).bind (fun r => alookup r c)

/-- An all-missing row over the given columns: a left join fills the
columns of an unmatched right side with NaN. -/
def nullRow (cols : List String) : Row :=
  cols.map (fun c => (c, Cell.v PVal.nan))

/-- Embedding of df_full.join(chunk_df, how="left") on the geo-key index
(ETL line 199, extraction line 108): the result keeps exactly the left
frame's row population in its order; each row is extended with the
matching right row, or with missing values when its key is absent on the
right. -/
def leftJoin (a b : Frame) : Frame :=
  { rows := a.rows.map (fun kr =>
      (kr.1, kr.2 ++ (match alookup b.rows kr.1 with
        | some r => r
        | none => nullRow b.cols))),
    cols := a.cols ++ b.cols }

/-- One step of the chunk-merge accumulation: df_full is None before the
loop, the first chunk becomes the accumulator, and every later chunk is
left-joined onto it (ETL lines 151-199, extraction lines 94-108). -/
def merge_step (acc : Option Frame) (c : Frame) : Option Frame :=
  match acc with
  | none => some c
  | some f => some (leftJoin f c)

/-- The chunk-merge loop over the per-chunk results, in order. -/
def merge_chunks (chunks : List Frame) : Option Frame :=
  chunks.foldl merge_step none

/-! ## Numeric coercion -/

/-- Value of a digit string (most significant digit first). -/
def digitVal (l : List Char) : ℕ :=
  l.foldl (fun a c => a * 10 + (c.toNat - 48)) 0

/-- Digit-string parser: a nonempty all-digit string parses to its value. -/
def parseDigits (l : List Char) : Option ℕ :=
  if l ≠ [] ∧ l.all Char.isDigit then some (digitVal l) else none

/-- Character-list core of pd.to_numeric(_, errors="coerce") on one text
value, restricted to optionally-signed integer literals: such a literal
parses to its numeric value and any other text becomes NaN, that is,
missing (the claims only ever involve integer-coded dimension fields, so
the decimal-literal cases of the library parser are not needed). -/
def toNumeric_chars : List Char → PVal
  | [] => PVal.nan
  | c :: rest =>
    if c = '-' then
      match parseDigits rest with
      | some n => PVal.num (-(n : ℚ))
      | none => PVal.nan
    else
      match parseDigits (c :: rest) with
      | some n => PVal.num ((n : ℚ))
      | none => PVal.nan

/-- Model of pd.to_numeric(_, errors="coerce") on one text value. -/
def pyToNumeric (s : String) : PVal := toNumeric_chars s.data

/-- Coercion of a single cell: text is parsed, numeric values pass
through. -/
def to_numeric_cell : Cell → Cell
  | Cell.s str => Cell.v (pyToNumeric str)
  | Cell.v x => Cell.v x

/-- What the coercion loop does at one column: the passthrough columns
NAME and geometry are left alone, every other column is coerced. -/
def coerce_cell_at (c : String) (x : Cell) : Cell :=
  if c = "NAME" ∨ c = "geometry" then x else to_numeric_cell x

/-- Embedding of the numeric-coercion loop (ETL lines 200-203,
extraction lines 75-78): for col in df.columns, if col not in
("NAME", "geometry"): df[col] = pd.to_numeric(df[col], errors="coerce").
The geo-key index is not a column and is untouched. -/
def coerce_numeric (f : Frame) : Frame :=
  { rows := f.rows.map (fun kr =>
      (kr.1, kr.2.map (fun ce => (ce.1, coerce_cell_at ce.1 ce.2)))),
    cols := f.cols }

/-- Embedding of geo_df.reset_index() (ETL line 240): the geo-key index
becomes an ordinary leading column, keeping its string form. -/
def reset_index (idxName : String) (f : Frame) : Frame :=
  { rows := f.rows.map (fun kr => (kr.1, (idxName, Cell.s kr.1) :: kr.2)),
    cols := idxName :: f.cols }

/-! ## Reliability annotation -/

/-- Name of the derived coefficient-of-variation column for an estimate. -/
def cvName (est : String) : String := est ++ "_CV"

/-- Name of the derived standard-error column in the setup script. -/
def seName (est : String) : String := est ++ "_SE"

/-- Numeric value of a row at a column; a missing column or a text cell
reads as NaN, as pandas float access would give. -/
def rowVal (r : Row) (c : String) : PVal :=
  match alookup r c with
  | some (Cell.v x) => x
  | _ => PVal.nan

/-- Column assignment df[name] = expr(row): appends one derived column
computed per record. -/
def addDerived (f : Frame) (name : String) (d : Row → PVal) : Frame :=
  { rows := f.rows.map (fun kr => (kr.1, kr.2 ++ [(name, Cell.v (d kr.2))])),
    cols := f.cols ++ [name] }

/-- One step of the CV loop (ETL lines 234-237, extraction lines
111-114): moe_var = est_var.replace("E", "M"); if est_var in
geo_df.columns and moe_var in geo_df.columns then geo_df[est_var+"_CV"]
= (geo_df[moe_var] / 1.645) / geo_df[est_var] * 100.0; otherwise the
variable is silently skipped. -/
def ann_step (g : Frame) (est : String) : Frame :=
  if est ∈ g.cols ∧ moe_code est ∈ g.cols then
    addDerived g (cvName est)
      (fun r => cv_expr (rowVal r (moe_code est)) (rowVal r est))
  else g

/-- The full CV loop of the main ETL over its estimate variable codes:
note that it adds only a CV column per pair, never a standard-error
column. -/
def etl_annotate (var_codes : List String) (f : Frame) : Frame :=
  var_codes.foldl ann_step f

/-- The environment-setup script's per-pair annotation (setup script
lines 54-61): an SE column M / 1.645 is added first, then a CV column
SE / E * 100 computed from the just-added SE column. -/
def setup_annotate_pair (g : Frame) (est moe : String) : Frame :=
  let g1 := addDerived g (seName est) (fun r => pdiv (rowVal r moe) (PVal.num Z90))
  addDerived g1 (cvName est)
    (fun r => pmul (pdiv (rowVal r (seName est)) (rowVal r est)) (PVal.num 100))

/-- The setup script's loop over its estimate/MOE column pairs. -/
def setup_annotate (pairs : List (String × String)) (f : Frame) : Frame :=
  pairs.foldl (fun g p => setup_annotate_pair g p.1 p.2) f

/-- A one-record frame holding one estimate column and its paired MOE
column with the given cell values: the shape of a state-level result set
for a single variable. -/
def pairFrame (e m : PVal) : Frame :=
  { rows := [("06", [("B01003_001E", Cell.v e), ("B01003_001M", Cell.v m)])],
    cols := ["B01003_001E", "B01003_001M"] }

/-! ## Retry loop -/

/-- Retry configuration, acs5_2022_extraction_all_geos.py lines 14-15. -/
def RETRY_LIMIT : Nat := 3

/-- Seconds slept after each timed-out attempt. -/
def WAIT_BETWEEN_RETRIES : Nat := 2

/-- Observable result of the retry while-loop: the binding of the Python
name chunk_df after the loop (none when the name was never assigned),
the number of download attempts made, and the total seconds slept. -/
structure RetryOut where
  binding : Option Frame
  attempts : Nat
  sleepSecs : Nat
deriving DecidableEq

/-- Embedding of the retry loop (extraction lines 97-104): while retries
is positive, try the download and break on success; on ReadTimeout
decrement retries and sleep WAIT_BETWEEN_RETRIES seconds.  The oracle
maps each attempt number to a frame or a timeout; the Option Frame
argument is the value bound to the name chunk_df before the loop (a
stale frame from an earlier chunk, or none at the very first chunk).
When the budget is exhausted the loop merely exits: no exception is
raised and the binding stays whatever it was. -/
def retry_go (oracle : Nat → Except Unit Frame) :
    Nat → Nat → Nat → Option Frame → RetryOut
  | 0, k, slept, b => ⟨b, k, slept⟩
  | r + 1, k, slept, b =>
    match oracle k with
    | Except.ok df => ⟨some df, k + 1, slept⟩
    | Except.error _ => retry_go oracle r (k + 1) (slept + WAIT_BETWEEN_RETRIES) b

/-- The retry loop as entered by the code, with the full budget. -/
def run_retry (oracle : Nat → Except Unit Frame) (b : Option Frame) : RetryOut :=
  retry_go oracle RETRY_LIMIT 0 0 b

/-- What the code after the loop does with the name chunk_df (extraction
lines 105-108): it reads it unconditionally.  An unbound name raises
NameError, crashing the whole run; otherwise the bound frame - possibly
a stale one from an earlier chunk - is merged and written. -/
inductive ChunkUse where
  | used : Frame → ChunkUse
  | nameErrorCrash : ChunkUse
deriving DecidableEq

/-- Reading the chunk_df binding after the loop. -/
def after_retry : Option Frame → ChunkUse
  | some df => ChunkUse.used df
  | none => ChunkUse.nameErrorCrash

/-! ## Orchestrator loop -/

/-- Embedding of the un-guarded orchestrator loop (ETL lines 220-253):
each table-by-geography unit either completes and is written (ok) or
raises (error).  The body has no try/except, so the first raising unit
aborts the remainder of the loop and its exception propagates out;
returned are the values written, in order, and the escaping exception if
any. -/
def run_units : List (Except ε δ) → List δ × Option ε
  | [] => ([], none)
  | Except.ok d :: rest =>
    let p := run_units rest
    (d :: p.1, p.2)
  | Except.error e :: _ => ([], some e)

/-! ## Concrete instances used as evaluation inputs -/

/-- A first chunk holding the single geographic unit 01 with its
passthrough NAME column. -/
def chunkA : Frame :=
  { rows := [("01", [("NAME", Cell.s "Alabama")])],
    cols := ["NAME"] }

/-- A later chunk holding the units 01 and 02, the latter absent from
the first chunk. -/
def chunkB : Frame :=
  { rows := [("01", [("B01003_001E", Cell.v (PVal.num 5))]),
             ("02", [("B01003_001E", Cell.v (PVal.num 7))])],
    cols := ["B01003_001E"] }

/-- A one-record frame holding only an estimate column, with no paired
margin-of-error column present. -/
def soloFrame : Frame :=
  { rows := [("06", [("B01003_001E", Cell.v (PVal.num 5))])],
    cols := ["B01003_001E"] }

end CensusETL

namespace CensusETL

/-! ## Helper lemmas -/

theorem Z90_ne_zero : Z90 ≠ 0 := by norm_num [Z90]

theorem Z90_not_neg : ¬ Z90 < 0 := by norm_num [Z90]

theorem zfill_chars_length (w : Nat) (l : List Char) :
    (zfill_chars w l).length = max w l.length := by
  rcases l with _ | ⟨c, rest⟩
  · simp [zfill_chars]
  · rw [zfill_chars]
    split_ifs with h1 h2 <;>
      simp only [List.length_cons, List.length_append, List.length_replicate] at * <;>
      omega

theorem pyZfill_length (s : String) (w : Nat) :
    (pyZfill s w).length = max w s.length :=
  zfill_chars_length w s.data

theorem keys_leftJoin (a b : Frame) : (leftJoin a b).keys = a.keys := by
  simp [leftJoin, Frame.keys]

theorem merge_keys_aux : ∀ (cs : List Frame) (f m : Frame),
    cs.foldl merge_step (some f) = some m → m.keys = f.keys := by
  intro cs
  induction cs with
  | nil =>
    intro f m h
    simp only [List.foldl_nil, Option.some.injEq] at h
    rw [← h]
  | cons c rest ih =>
    intro f m h
    simp only [List.foldl_cons, merge_step] at h
    rw [ih (leftJoin f c) m h, keys_leftJoin]

theorem coerce_keys (f : Frame) : (coerce_numeric f).keys = f.keys := by
  simp [coerce_numeric, Frame.keys]

theorem alookup_map_keyed (g : String → β → γ) (l : List (String × β)) (k : String) :
    alookup (l.map (fun p => (p.1, g p.1 p.2))) k = (alookup l k).map (g k) := by
  induction l with
  | nil => rfl
  | cons p rest ih =>
    rcases p with ⟨a, b⟩
    simp only [List.map_cons, alookup]
    split_ifs with h
    · subst h; rfl
    · exact ih

theorem digit_foldl_zeros (n : ℕ) :
    List.foldl (fun a c => a * 10 + (c.toNat - 48)) 0 (List.replicate n '0') = 0 := by
  induction n with
  | zero => rfl
  | succ n ih =>
    rw [List.replicate_succ, List.foldl_cons]
    exact ih

theorem digitVal_zeros (z : ℕ) (l : List Char) :
    digitVal (List.replicate z '0' ++ l) = digitVal l := by
  unfold digitVal
  rw [List.foldl_append, digit_foldl_zeros]

theorem all_digits_replicate_zero (n : ℕ) :
    (List.replicate n '0').all Char.isDigit = true := by
  induction n with
  | zero => rfl
  | succ n ih =>
    rw [List.replicate_succ, List.all_cons, ih]
    rfl

theorem toNumeric_chars_digits (l : List Char) (h1 : l ≠ [])
    (h2 : l.all Char.isDigit = true) :
    toNumeric_chars l = PVal.num (digitVal l) := by
  rcases l with _ | ⟨c, rest⟩
  · exact absurd rfl h1
  · have hall := h2
    rw [List.all_cons, Bool.and_eq_true] at hall
    have hcd : c.isDigit = true := hall.1
    have hcm : c ≠ '-' := by
      intro hc
      rw [hc] at hcd
      exact absurd hcd (by decide)
    rw [toNumeric_chars, if_neg hcm, parseDigits, if_pos ⟨by simp, h2⟩]

theorem toNumeric_zfill_digits (w : ℕ) (l : List Char) (h1 : l ≠ [])
    (h2 : l.all Char.isDigit = true) :
    toNumeric_chars (zfill_chars w l) = PVal.num (digitVal l) := by
  rcases l with _ | ⟨c, rest⟩
  · exact absurd rfl h1
  · have hall := h2
    rw [List.all_cons, Bool.and_eq_true] at hall
    have hcd : c.isDigit = true := hall.1
    have hcp : ¬(c = '+' ∨ c = '-') := by
      rintro (hc | hc) <;> rw [hc] at hcd <;> exact absurd hcd (by decide)
    rw [zfill_chars]
    split_ifs with hw
    · exact toNumeric_chars_digits _ h1 h2
    · have hrep : (List.replicate (w - (c :: rest).length) '0' ++ c :: rest).all
          Char.isDigit = true := by
        rw [List.all_append, all_digits_replicate_zero, h2]
        rfl
      rw [toNumeric_chars_digits _ (by simp) hrep, digitVal_zeros]

theorem pyToNumeric_zfill_digits (s : String) (w : ℕ) (h1 : s.data ≠ [])
    (h2 : s.data.all Char.isDigit = true) :
    pyToNumeric (pyZfill s w) = PVal.num (digitVal s.data) :=
  toNumeric_zfill_digits w s.data h1 h2

theorem retry_go_attempts_le (oracle : Nat → Except Unit Frame) :
    ∀ (r k slept : Nat) (b : Option Frame),
      (retry_go oracle r k slept b).attempts ≤ k + r := by
  intro r
  induction r with
  | zero =>
    intro k slept b
    simp [retry_go]
  | succ n ih =>
    intro k slept b
    rw [retry_go]
    cases h : oracle k with
    | ok df => simp
    | error err =>
      exact le_trans (ih (k + 1) (slept + WAIT_BETWEEN_RETRIES) b) (by omega)

theorem chunk_ceil_step (n : ℕ) (hn : 1 ≤ n) :
    (n + MAX_VARS_PER_CALL - 1) / MAX_VARS_PER_CALL =
      (n - MAX_VARS_PER_CALL + MAX_VARS_PER_CALL - 1) / MAX_VARS_PER_CALL + 1 := by
  simp only [MAX_VARS_PER_CALL]
  omega

theorem fetch_chunks_eq_chunksRec (l : List α) : fetch_chunks l = chunksRec l := by
  induction l using chunksRec.induct with
  | case1 => rw [chunksRec]; simp [fetch_chunks, MAX_VARS_PER_CALL]
  | case2 a as ih =>
    rw [chunksRec, ← ih]
    simp only [fetch_chunks, List.length_drop]
    rw [chunk_ceil_step (a :: as).length (by simp),
      List.range_succ_eq_map, List.map_cons, List.map_map]
    refine List.cons_eq_cons.mpr ⟨by simp, ?_⟩
    apply List.map_congr_left
    intro j hj
    simp only [Function.comp_apply, Nat.succ_eq_add_one]
    have h50 : (j + 1) * MAX_VARS_PER_CALL = MAX_VARS_PER_CALL + j * MAX_VARS_PER_CALL := by
      ring
    rw [List.drop_drop, h50]

theorem chunksRec_flatten (l : List α) : (chunksRec l).flatten = l := by
  induction l using chunksRec.induct with
  | case1 => rw [chunksRec]; rfl
  | case2 a as ih =>
    rw [chunksRec, List.flatten_cons, ih, List.take_append_drop]

theorem chunksRec_sizes (l : List α) :
    ∀ c ∈ chunksRec l, c.length ≤ MAX_VARS_PER_CALL := by
  induction l using chunksRec.induct with
  | case1 => intro c hc; rw [chunksRec] at hc; cases hc
  | case2 a as ih =>
    intro c hc
    rw [chunksRec] at hc
    rcases List.mem_cons.mp hc with rfl | hc
    · rw [List.length_take]
      exact Nat.min_le_left _ _
    · exact ih c hc

theorem chunksRec_count (l : List α) :
    (chunksRec l).length = (l.length + MAX_VARS_PER_CALL - 1) / MAX_VARS_PER_CALL := by
  induction l using chunksRec.induct with
  | case1 => rw [chunksRec]; simp [MAX_VARS_PER_CALL]
  | case2 a as ih =>
    rw [chunksRec, List.length_cons, ih, List.length_drop]
    simp only [List.length_cons, MAX_VARS_PER_CALL]
    omega

end CensusETL

/-- C1: the code derives margin-of-error codes with a naive global
replace of the letter E, so for an estimate code whose table prefix also
contains an E (such as B06004E_001E) it produces B06004M_001M, whereas
the claimed rule (replace only the trailing field-type character,
implemented correctly but unused at line 35 of the extraction script)
produces B06004E_001M. -/
theorem C1_moe_global_replace_bug :
    CensusETL.moe_code "B06004E_001E" = "B06004M_001M" ∧
    CensusETL.trailing_moe "B06004E_001E" = "B06004E_001M" ∧
    CensusETL.moe_code "B06004E_001E" ≠ "B06004E_001M" ∧
    CensusETL.moe_code "B01003_001E" = "B01003_001M" := by
  refine ⟨rfl, rfl, ?_, rfl⟩
  decide

/-- C2 counterexample: at the concrete record with margin of error 1645
and estimate exactly 0, the computed coefficient of variation is positive
infinity and is not recorded as missing, refuting the claim that a zero
estimate always yields a missing CV. -/
theorem C2_cv_zero_estimate_counterexample :
    CensusETL.cv_expr (CensusETL.PVal.num 1645) (CensusETL.PVal.num 0) =
      CensusETL.PVal.inf ∧
    CensusETL.isMissing
      (CensusETL.cv_expr (CensusETL.PVal.num 1645) (CensusETL.PVal.num 0)) = false := by
  have h : CensusETL.cv_expr (CensusETL.PVal.num 1645) (CensusETL.PVal.num 0) =
      CensusETL.PVal.inf := by
    norm_num [CensusETL.cv_expr, CensusETL.pdiv, CensusETL.pmul, CensusETL.Z90]
  exact ⟨h, by rw [h]; rfl⟩

/-- C2 amended: when the estimate is missing the CV is missing (NaN
propagates) and the computation is total, so no divide-by-zero error is
ever raised; but when the estimate is exactly zero the CV is recorded as
a signed infinity whenever the margin of error is a finite nonzero value,
and as NaN only when the margin of error is zero or missing. -/
theorem C2_cv_missing_amended :
    (∀ m : CensusETL.PVal,
      CensusETL.cv_expr m CensusETL.PVal.nan = CensusETL.PVal.nan) ∧
    (∀ q : ℚ, 0 < q →
      CensusETL.cv_expr (CensusETL.PVal.num q) (CensusETL.PVal.num 0) =
        CensusETL.PVal.inf) ∧
    (∀ q : ℚ, q < 0 →
      CensusETL.cv_expr (CensusETL.PVal.num q) (CensusETL.PVal.num 0) =
        CensusETL.PVal.neginf) ∧
    CensusETL.cv_expr (CensusETL.PVal.num 0) (CensusETL.PVal.num 0) =
      CensusETL.PVal.nan ∧
    CensusETL.cv_expr CensusETL.PVal.nan (CensusETL.PVal.num 0) =
      CensusETL.PVal.nan := by
  refine ⟨?_, ?_, ?_,
      by norm_num [CensusETL.cv_expr, CensusETL.pdiv, CensusETL.pmul, CensusETL.Z90],
      rfl⟩
  · intro m
    cases m <;>
      simp [CensusETL.cv_expr, CensusETL.pdiv, CensusETL.pmul,
        CensusETL.Z90_ne_zero, CensusETL.Z90_not_neg]
  · intro q hq
    have hpos : 0 < q / CensusETL.Z90 := by
      apply div_pos hq
      norm_num [CensusETL.Z90]
    have hne : q / CensusETL.Z90 ≠ 0 := ne_of_gt hpos
    simp [CensusETL.cv_expr, CensusETL.pdiv, CensusETL.pmul,
      CensusETL.Z90_ne_zero, hne, hpos]
  · intro q hq
    have hneg : q / CensusETL.Z90 < 0 := by
      apply div_neg_of_neg_of_pos hq
      norm_num [CensusETL.Z90]
    have hne : q / CensusETL.Z90 ≠ 0 := ne_of_lt hneg
    have hnpos : ¬ 0 < q / CensusETL.Z90 := not_lt.mpr (le_of_lt hneg)
    simp [CensusETL.cv_expr, CensusETL.pdiv, CensusETL.pmul,
      CensusETL.Z90_ne_zero, hne, hnpos]

/-- C2 amended witness: the amended theorem applied at margin of error
1645 (positive) and at margin of error -3 (negative) with estimate 0. -/
theorem C2_cv_missing_amended_witness :
    CensusETL.cv_expr (CensusETL.PVal.num 1645) (CensusETL.PVal.num 0) =
      CensusETL.PVal.inf ∧
    CensusETL.cv_expr (CensusETL.PVal.num (-3)) (CensusETL.PVal.num 0) =
      CensusETL.PVal.neginf :=
  ⟨C2_cv_missing_amended.2.1 1645 (by norm_num),
   C2_cv_missing_amended.2.2.1 (-3) (by norm_num)⟩

/-- C5 confirmed: for an ordered variable list of length N the fetcher's
chunking loop issues exactly (N + 50 - 1) / 50 = ceil(N/50) requests,
each chunk has at most 50 variables, and the concatenation of the chunks
in order is exactly the input list, so order is preserved and every
variable appears in exactly one chunk with no duplication or omission. -/
theorem C5_chunking (l : List String) :
    (CensusETL.fetch_chunks l).length =
      (l.length + CensusETL.MAX_VARS_PER_CALL - 1) / CensusETL.MAX_VARS_PER_CALL ∧
    (∀ c ∈ CensusETL.fetch_chunks l, c.length ≤ CensusETL.MAX_VARS_PER_CALL) ∧
    (CensusETL.fetch_chunks l).flatten = l := by
  rw [CensusETL.fetch_chunks_eq_chunksRec]
  exact ⟨CensusETL.chunksRec_count l, CensusETL.chunksRec_sizes l,
    CensusETL.chunksRec_flatten l⟩

/-- C5 witness: the chunking theorem applied to a concrete three-variable
list, whose single chunk is within the 50-variable limit and whose
concatenation reproduces the list. -/
theorem C5_chunking_witness :
    (["B01003_001E", "B01003_001M", "NAME"].length ≤ CensusETL.MAX_VARS_PER_CALL) ∧
    (CensusETL.fetch_chunks ["B01003_001E", "B01003_001M", "NAME"]).flatten =
      ["B01003_001E", "B01003_001M", "NAME"] :=
  ⟨(C5_chunking ["B01003_001E", "B01003_001M", "NAME"]).2.1
      ["B01003_001E", "B01003_001M", "NAME"] (by decide),
   (C5_chunking ["B01003_001E", "B01003_001M", "NAME"]).2.2⟩

/-- C6 counterexample: the raw record with the state dimension field
present but equal to the 3-character string 123 yields the state-level
key 123 of width 3, not the documented fixed width 2 - zfill pads but
never truncates - refuting the claim that presence of the required
fields alone guarantees fixed-width keys. -/
theorem C6_overwidth_state_counterexample :
    CensusETL.key_state "123" = "123" ∧ (CensusETL.key_state "123").length ≠ 2 := by
  constructor <;> decide

/-- C6 amended: for every geography level and every raw record whose
required dimension fields are present and each at most its documented
segment width (as the upstream API returns them), the key construction
concatenates the zero-filled segments in fixed order and produces a key
of the documented fixed width (11 for tract, 5 for county, 5 for zcta,
2 for state), and it is deterministic: equal raw fields give equal keys
on every call.  An over-width field, however, yields an over-width key,
since zfill never truncates. -/
theorem C6_fixed_width_keys_amended (state county tract z : String)
    (h1 : state.length ≤ 2) (h2 : county.length ≤ 3)
    (h3 : tract.length ≤ 6) (h4 : z.length ≤ 5) :
    (CensusETL.geoid_tract state county tract).length = 11 ∧
    (CensusETL.fips_county state county).length = 5 ∧
    (CensusETL.key_zcta z).length = 5 ∧
    (CensusETL.key_state state).length = 2 ∧
    (∀ s2 c2 t2 : String, s2 = state → c2 = county → t2 = tract →
      CensusETL.geoid_tract s2 c2 t2 = CensusETL.geoid_tract state county tract) := by
  refine ⟨?_, ?_, ?_, ?_, ?_⟩
  · simp [CensusETL.geoid_tract, String.length_append, CensusETL.pyZfill_length]
    omega
  · simp [CensusETL.fips_county, String.length_append, CensusETL.pyZfill_length]
    omega
  · simp [CensusETL.key_zcta, CensusETL.pyZfill_length]
    omega
  · simp [CensusETL.key_state, CensusETL.pyZfill_length]
    omega
  · intro s2 c2 t2 hs hc ht
    rw [hs, hc, ht]

/-- C6 amended witness: the amended theorem applied to the concrete raw
fields state 48, county 201, tract 310100 and zcta 77001, giving an
11-character tract GEOID and a 2-character state key. -/
theorem C6_fixed_width_keys_amended_witness :
    (CensusETL.geoid_tract "48" "201" "310100").length = 11 ∧
    (CensusETL.key_state "48").length = 2 :=
  ⟨(C6_fixed_width_keys_amended "48" "201" "310100" "77001"
      (by decide) (by decide) (by decide) (by decide)).1,
   (C6_fixed_width_keys_amended "48" "201" "310100" "77001"
      (by decide) (by decide) (by decide) (by decide)).2.2.2.1⟩

/-- C7 confirmed: every chunk after the first is merged by a left join
on the geo-key index, so the merged frame's key population is exactly
the first chunk's, in order; a geographic unit appearing only in a later
chunk and absent from the first chunk does not appear in the final
merged result. -/
theorem C7_first_chunk_authoritative (c1 : CensusETL.Frame)
    (cs : List CensusETL.Frame) (m : CensusETL.Frame)
    (hm : CensusETL.merge_chunks (c1 :: cs) = some m) :
    m.keys = c1.keys ∧ ∀ k : String, k ∉ c1.keys → k ∉ m.keys := by
  have hstep : CensusETL.merge_chunks (c1 :: cs) =
      cs.foldl CensusETL.merge_step (some c1) := rfl
  rw [hstep] at hm
  have h1 : m.keys = c1.keys := CensusETL.merge_keys_aux cs c1 m hm
  exact ⟨h1, fun k hk => by rw [h1]; exact hk⟩

/-- C7 witness: merging the concrete chunks chunkA (unit 01 only) and
chunkB (units 01 and 02): the merged key population is exactly 01, and
the unit 02 present only in the second chunk is dropped. -/
theorem C7_first_chunk_authoritative_witness :
    (CensusETL.leftJoin CensusETL.chunkA CensusETL.chunkB).keys = ["01"] ∧
    "02" ∉ (CensusETL.leftJoin CensusETL.chunkA CensusETL.chunkB).keys := by
  have h := C7_first_chunk_authoritative CensusETL.chunkA [CensusETL.chunkB]
    (CensusETL.leftJoin CensusETL.chunkA CensusETL.chunkB) rfl
  exact ⟨by rw [h.1]; rfl, h.2 "02" (by decide)⟩

/-- C9 confirmed: after the merge, the coercion loop rewrites every cell
of every column other than the passthrough columns NAME and geometry -
including the zero-padded dimension columns - through pd.to_numeric,
leaves NAME and geometry cells untouched, and never touches the geo-key
index, which reset_index then re-exposes as a string column; a nonempty
zero-padded digit string coerces to its numeric value, on which the
padding zeros leave no trace. -/
theorem C9_numeric_coercion (f : CensusETL.Frame) (k c idxName : String)
    (cell : CensusETL.Cell) (hcell : CensusETL.cellAt f k c = some cell) :
    ((c ≠ "NAME" ∧ c ≠ "geometry") →
      CensusETL.cellAt (CensusETL.coerce_numeric f) k c =
        some (CensusETL.to_numeric_cell cell)) ∧
    ((c = "NAME" ∨ c = "geometry") →
      CensusETL.cellAt (CensusETL.coerce_numeric f) k c = some cell) ∧
    (CensusETL.coerce_numeric f).keys = f.keys ∧
    CensusETL.cellAt (CensusETL.reset_index idxName (CensusETL.coerce_numeric f))
      k idxName = some (CensusETL.Cell.s k) ∧
    (∀ (s : String) (w : ℕ), s.data ≠ [] → s.data.all Char.isDigit = true →
      CensusETL.pyToNumeric (CensusETL.pyZfill s w) =
        CensusETL.PVal.num (CensusETL.digitVal s.data)) := by
  rcases hrow : CensusETL.alookup f.rows k with _ | row
  · rw [CensusETL.cellAt, hrow] at hcell
    cases hcell
  · rw [CensusETL.cellAt, hrow] at hcell
    replace hcell : CensusETL.alookup row c = some cell := hcell
    have hco : CensusETL.alookup (CensusETL.coerce_numeric f).rows k =
        some (row.map (fun ce => (ce.1, CensusETL.coerce_cell_at ce.1 ce.2))) := by
      rw [CensusETL.coerce_numeric]
      rw [CensusETL.alookup_map_keyed
        (fun _ r => r.map (fun ce => (ce.1, CensusETL.coerce_cell_at ce.1 ce.2))) f.rows k,
        hrow]
      rfl
    have hcellco : CensusETL.cellAt (CensusETL.coerce_numeric f) k c =
        some (CensusETL.coerce_cell_at c cell) := by
      have hx : CensusETL.alookup
          (row.map (fun ce => (ce.1, CensusETL.coerce_cell_at ce.1 ce.2))) c =
          some (CensusETL.coerce_cell_at c cell) := by
        rw [CensusETL.alookup_map_keyed CensusETL.coerce_cell_at row c, hcell]
        rfl
      rw [CensusETL.cellAt, hco]
      exact hx
    refine ⟨?_, ?_, ?_, ?_, ?_⟩
    · intro hns
      rw [hcellco, CensusETL.coerce_cell_at,
        if_neg (by rintro (h | h) <;> [exact hns.1 h; exact hns.2 h])]
    · intro hpass
      rw [hcellco, CensusETL.coerce_cell_at, if_pos hpass]
    · exact CensusETL.coerce_keys f
    · rw [CensusETL.cellAt, CensusETL.reset_index]
      rw [CensusETL.alookup_map_keyed
        (fun key r => (idxName, CensusETL.Cell.s key) :: r)
        (CensusETL.coerce_numeric f).rows k, hco]
      show CensusETL.alookup ((idxName, CensusETL.Cell.s k) ::
          row.map (fun ce => (ce.1, CensusETL.coerce_cell_at ce.1 ce.2))) idxName =
        some (CensusETL.Cell.s k)
      rw [CensusETL.alookup, if_pos rfl]
    · intro s w h1 h2
      exact CensusETL.pyToNumeric_zfill_digits s w h1 h2

/-- C9 witness: the coercion theorem applied to a concrete tract-level
record: the state column cell 48 is coerced to the numeric value 48, the
NAME cell is untouched, and the zero-padded county string 064 coerces to
the number 64 with no leading zeros. -/
theorem C9_numeric_coercion_witness :
    CensusETL.cellAt
      (CensusETL.coerce_numeric
        { rows := [("48201310100",
            [("state", CensusETL.Cell.s "48"), ("NAME", CensusETL.Cell.s "Harris")])],
          cols := ["state", "NAME"] }) "48201310100" "state" =
      some (CensusETL.Cell.v (CensusETL.PVal.num 48)) ∧
    CensusETL.pyToNumeric (CensusETL.pyZfill "64" 3) = CensusETL.PVal.num 64 := by
  have h := C9_numeric_coercion
    { rows := [("48201310100",
        [("state", CensusETL.Cell.s "48"), ("NAME", CensusETL.Cell.s "Harris")])],
      cols := ["state", "NAME"] } "48201310100" "state" "GEOID"
    (CensusETL.Cell.s "48") rfl
  constructor
  · have h1 := h.1 ⟨by decide, by decide⟩
    rw [h1]
    have hv : CensusETL.pyToNumeric "48" = CensusETL.PVal.num 48 := by
      have hn : CensusETL.digitVal "48".data = 48 := by decide
      have := CensusETL.toNumeric_chars_digits "48".data (by decide) (by decide)
      rw [CensusETL.pyToNumeric, this, hn]
      norm_num
    rw [CensusETL.to_numeric_cell, hv]
  · have h2 := h.2.2.2.2 "64" 3 (by decide) (by decide)
    have hn : CensusETL.digitVal "64".data = 64 := by decide
    rw [h2, hn]
    norm_num

/-- C4 counterexample: annotating the concrete one-record result set
holding the pair B01003_001E / B01003_001M, the main ETL's annotation
step adds a coefficient-of-variation column but no standard-error
column B01003_001E_SE, refuting the claim that both derived columns are
added to each persisted record set. -/
theorem C4_no_se_column_counterexample :
    CensusETL.seName "B01003_001E" ∉
      (CensusETL.etl_annotate ["B01003_001E"]
        (CensusETL.pairFrame (CensusETL.PVal.num 100) (CensusETL.PVal.num 20))).cols ∧
    CensusETL.cvName "B01003_001E" ∈
      (CensusETL.etl_annotate ["B01003_001E"]
        (CensusETL.pairFrame (CensusETL.PVal.num 100) (CensusETL.PVal.num 20))).cols := by
  constructor <;> decide

/-- C4 amended: in the main ETL (and the all-geos extraction, which
shares the same loop) the annotation step adds exactly one derived
column per present estimate/MOE pair - the coefficient-of-variation
column with value ((M / 1.645) / E) * 100; the standard error M / 1.645
appears only as an intermediate subexpression, never as a persisted
column.  Only the single-county environment-setup script adds both the
standard-error column M / 1.645 and the coefficient-of-variation column
(SE / E) * 100. -/
theorem C4_annotation_columns_amended (e m : CensusETL.PVal) :
    CensusETL.etl_annotate ["B01003_001E"] (CensusETL.pairFrame e m) =
      { rows := [("06",
          [("B01003_001E", CensusETL.Cell.v e),
           ("B01003_001M", CensusETL.Cell.v m),
           ("B01003_001E_CV", CensusETL.Cell.v (CensusETL.cv_expr m e))])],
        cols := ["B01003_001E", "B01003_001M", "B01003_001E_CV"] } ∧
    CensusETL.setup_annotate [("B01003_001E", "B01003_001M")]
        (CensusETL.pairFrame e m) =
      { rows := [("06",
          [("B01003_001E", CensusETL.Cell.v e),
           ("B01003_001M", CensusETL.Cell.v m),
           ("B01003_001E_SE",
              CensusETL.Cell.v (CensusETL.pdiv m (CensusETL.PVal.num CensusETL.Z90))),
           ("B01003_001E_CV",
              CensusETL.Cell.v (CensusETL.pmul
                (CensusETL.pdiv (CensusETL.pdiv m (CensusETL.PVal.num CensusETL.Z90)) e)
                (CensusETL.PVal.num 100)))])],
        cols := ["B01003_001E", "B01003_001M", "B01003_001E_SE", "B01003_001E_CV"] } := by
  constructor <;> rfl

/-- C10 confirmed: when an estimate variable's column, or its derived
margin-of-error column, is absent from the merged result set, the
column-presence guard makes the CV loop skip that variable silently: no
coefficient-of-variation column is added for it, no error is raised (the
step is total and returns the frame unchanged), and the rest of the loop
proceeds on the unchanged frame. -/
theorem C10_absent_column_guard (g : CensusETL.Frame) (est : String)
    (rest : List String)
    (h : est ∉ g.cols ∨ CensusETL.moe_code est ∉ g.cols) :
    CensusETL.ann_step g est = g ∧
    CensusETL.etl_annotate (est :: rest) g = CensusETL.etl_annotate rest g := by
  have h1 : ¬(est ∈ g.cols ∧ CensusETL.moe_code est ∈ g.cols) := by tauto
  have h2 : CensusETL.ann_step g est = g := by
    rw [CensusETL.ann_step, if_neg h1]
  refine ⟨h2, ?_⟩
  rw [CensusETL.etl_annotate, List.foldl_cons, h2]
  rfl

/-- C10 witness: the guard theorem applied to the concrete frame holding
only the estimate column B01003_001E and no B01003_001M: the annotation
leaves the frame exactly unchanged. -/
theorem C10_absent_column_guard_witness :
    CensusETL.etl_annotate ["B01003_001E"] CensusETL.soloFrame =
      CensusETL.soloFrame :=
  (C10_absent_column_guard CensusETL.soloFrame "B01003_001E" []
    (Or.inr (by decide))).2

/-- C3: the retry loop makes at most RETRY_LIMIT = 3 attempts, sleeping
WAIT_BETWEEN_RETRIES = 2 seconds after each timeout (6 seconds for a
fully failing chunk), but when all 3 attempts time out it exits without
raising anything: there is no FetchFailedError anywhere in the code.
The following statement then reads the name chunk_df unconditionally: at
the very first chunk this raises NameError, crashing the entire run, and
at any later chunk the previous chunk's stale frame is silently merged
and written in place of the failed chunk's data. -/
theorem C3_retry_exhaustion_behavior :
    CensusETL.run_retry (fun _ => Except.error ()) none =
      { binding := none, attempts := 3, sleepSecs := 6 } ∧
    CensusETL.after_retry none = CensusETL.ChunkUse.nameErrorCrash ∧
    (∀ stale : CensusETL.Frame,
      CensusETL.run_retry (fun _ => Except.error ()) (some stale) =
        { binding := some stale, attempts := 3, sleepSecs := 6 } ∧
      CensusETL.after_retry (some stale) = CensusETL.ChunkUse.used stale) ∧
    (∀ (oracle : Nat → Except Unit CensusETL.Frame) (b : Option CensusETL.Frame),
      (CensusETL.run_retry oracle b).attempts ≤ CensusETL.RETRY_LIMIT) := by
  refine ⟨rfl, rfl, fun stale => ⟨rfl, rfl⟩, fun oracle b => ?_⟩
  have h := CensusETL.retry_go_attempts_le oracle CensusETL.RETRY_LIMIT 0 0 b
  simpa [CensusETL.run_retry] using h

/-- C8 counterexample: with a first unit whose fetch raises and a second
healthy unit, the un-guarded orchestrator loop stops at the first unit -
the second unit's value 1 is never written - refuting the claim that a
per-unit failure lets the loop continue to the remaining units. -/
theorem C8_loop_abort_counterexample :
    CensusETL.run_units [Except.error "fetch failed", Except.ok 1] =
      (([] : List ℕ), some "fetch failed") ∧
    (1 : ℕ) ∉ (CensusETL.run_units [Except.error "fetch failed", Except.ok 1]).1 := by
  exact ⟨rfl, by decide⟩

/-- C8 amended: a fetch or write failure in a unit does prevent any
write for that unit, so its previously persisted dataset is left
untouched, and units completed before it keep their writes; but because
the loop body has no exception handling, the failure aborts the whole
orchestrator loop: no unit after the failing one is processed, and the
run terminates with the escaping exception (a nonzero process exit)
rather than recording the unit as failed and continuing. -/
theorem C8_failure_isolation_amended {ε δ : Type} (okd : List δ) (e : ε)
    (post : List (Except ε δ)) :
    CensusETL.run_units (okd.map Except.ok ++ Except.error e :: post) =
      (okd, some e) := by
  induction okd with
  | nil => rfl
  | cons d rest ih =>
    have hsplit : (d :: rest).map Except.ok ++ Except.error e :: post =
        Except.ok d :: (rest.map Except.ok ++ Except.error e :: post) := rfl
    rw [hsplit, CensusETL.run_units, ih]

/-- C3 witness: the attempt-budget bound of the retry theorem applied to
the concrete always-timing-out oracle with no prior binding. -/
theorem C3_retry_exhaustion_behavior_witness :
    (CensusETL.run_retry (fun _ => Except.error ()) none).attempts ≤
      CensusETL.RETRY_LIMIT :=
  C3_retry_exhaustion_behavior.2.2.2 (fun _ => Except.error ()) none

/-- C4 amended witness: the amended annotation theorem applied at the
concrete estimate 1000000 and margin of error 1645: the persisted
columns are the two fetched columns plus one CV column, with no SE
column. -/
theorem C4_annotation_columns_amended_witness :
    (CensusETL.etl_annotate ["B01003_001E"]
      (CensusETL.pairFrame (CensusETL.PVal.num 1000000)
        (CensusETL.PVal.num 1645))).cols =
      ["B01003_001E", "B01003_001M", "B01003_001E_CV"] := by
  rw [(C4_annotation_columns_amended (CensusETL.PVal.num 1000000)
    (CensusETL.PVal.num 1645)).1]

/-- C8 amended witness: the amended orchestrator theorem applied to one
successful unit, one failing unit, and one unit after the failure: only
the first unit is written and the exception escapes. -/
theorem C8_failure_isolation_amended_witness :
    CensusETL.run_units
      ((["t1"].map Except.ok) ++ Except.error "boom" :: [Except.ok "t3"]) =
      (["t1"], some "boom") :=
  C8_failure_isolation_amended ["t1"] "boom" [Except.ok "t3"]
